import Mathlib

/-!
Verification of the formatting core of a YouTube transcript HTTP service
(`app/main.py`).

Modelling conventions:
- Python strings are Lean `String`s; the handful of `str` methods the code
  uses (`strip`, `rstrip`, `lower`, `split(",")`, `zfill`-style `:02d`
  padding, `"\n".join`) are modelled explicitly over the character list of
  the string, so that every definition evaluates inside the kernel.
  The whitespace set is the ASCII part of Python's; all inputs exercised by
  the claims are ASCII.
- Python floats are modelled as exact rationals (`ℚ`); `round` is Python 3's
  round-half-to-even.  Every concrete input appearing in the claims is
  exactly representable, so the rational model agrees with the float code on
  them.
- Python `//` and `%` on ints are floor division and the matching modulus;
  for the positive divisors used here these are exactly `Int.ediv` and
  `Int.emod`.
-/

/-- ASCII whitespace stripped by Python's `str.strip` / `str.rstrip`. -/
def pyIsSpace (c : Char) : Bool :=
  c = ' ' || c = '\t' || c = '\n' || c = '\r' || c = '\x0b' || c = '\x0c'

/-- Python `str.strip()`: drop leading and trailing whitespace. -/
def pyStrip (s : String) : String :=
  String.mk (((s.data.dropWhile pyIsSpace).reverse.dropWhile pyIsSpace).reverse)

/-- Python `str.rstrip()`: drop trailing whitespace. -/
def pyRstrip (s : String) : String :=
  String.mk ((s.data.reverse.dropWhile pyIsSpace).reverse)

/-- Python `str.lower()` (ASCII case mapping). -/
def pyLower (s : String) : String :=
  String.mk (s.data.map Char.toLower)

/-- Python `str.split(sep)` for a one-character separator, on char lists:
keeps empty pieces, and the empty string yields one empty piece. -/
def splitCharList (sep : Char) : List Char → List (List Char)
  | [] => [[]]
  | c :: rest =>
    let r := splitCharList sep rest
    if c = sep then [] :: r
    else
      match r with
      | [] => [[c]]
      | piece :: pieces => (c :: piece) :: pieces

/-- Python `str.split(sep)` for a one-character separator. -/
def pySplit (sep : Char) (s : String) : List String :=
  (splitCharList sep s.data).map String.mk

/-- Python `"\n".join(lines)`. -/
def joinLines : List String → String
  | [] => ""
  | [l] => l
  | l :: ls => l ++ "\n" ++ joinLines ls

/-- Zero-pad a digit string on the left to the given width
(Python `str.zfill` on a digit string). -/
def zfill (width : Nat) (s : String) : String :=
  String.mk (List.replicate (width - s.length) '0') ++ s

/-- Python's format spec `0<width>d`: zero-pad a signed integer to a minimum
total width. -/
def pyZPad (width : Nat) (n : ℤ) : String :=
  if n < 0 then "-" ++ zfill (width - 1) (toString (-n).toNat)
  else zfill width (toString n.toNat)

/-- Python 3 `round` on an exact rational: round half to even. -/
def pyRound (q : ℚ) : ℤ :=
  let f := Rat.floor q
  let r := q - (f : ℚ)
  if r < 1/2 then f
  else if 1/2 < r then f + 1
  else if 2 ∣ f then f else f + 1

/-- One caption cue, as produced by the transcript provider:
text plus start time and duration in seconds. -/
structure Snippet where
  text : String
  start : ℚ
  duration : ℚ
deriving DecidableEq

/-- The `format` query parameter (`Literal["json", "srt", "vtt", "txt"]`). -/
inductive OutputFormat where
  | json
  | srt
  | vtt
  | txt

/-- Outcome of one `/transcript` request: a JSON body of raw snippets, a
plain-text body, or an `HTTPException` with status code and detail. -/
inductive Response where
  | jsonBody (snippets : List Snippet)
  | plainText (body : String)
  | error (status : Nat) (detail : String)
deriving DecidableEq

/-- `app/main.py` line 39: `_parse_languages`. -/
def _parse_languages (lang : Option String) : List String :=
  match lang with
  | none => ["en"]
  | some s =>
    if s = "" then ["en"]
    else
      let languages := (pySplit ',' s).map (fun code => pyLower (pyStrip code))
      languages.filter (fun code => code != "")

/-- `app/main.py` line 53: `_to_srt_timestamp`. -/
def _to_srt_timestamp (seconds : ℚ) : String :=
  let milliseconds_total := pyRound (seconds * 1000)
  let hours := Int.ediv milliseconds_total 3600000
  let minutes := Int.ediv (Int.emod milliseconds_total 3600000) 60000
  let secs := Int.ediv (Int.emod milliseconds_total 60000) 1000
  let millis := Int.emod milliseconds_total 1000
  pyZPad 2 hours ++ ":" ++ pyZPad 2 minutes ++ ":" ++ pyZPad 2 secs ++ "," ++ pyZPad 3 millis

/-- `app/main.py` line 62: `_to_vtt_timestamp`. -/
def _to_vtt_timestamp (seconds : ℚ) : String :=
  let milliseconds_total := pyRound (seconds * 1000)
  let hours := Int.ediv milliseconds_total 3600000
  let minutes := Int.ediv (Int.emod milliseconds_total 3600000) 60000
  let secs := Int.ediv (Int.emod milliseconds_total 60000) 1000
  let millis := Int.emod milliseconds_total 1000
  pyZPad 2 hours ++ ":" ++ pyZPad 2 minutes ++ ":" ++ pyZPad 2 secs ++ "." ++ pyZPad 3 millis

/-- `app/main.py` line 71: `_format_txt`. -/
def _format_txt (transcript : List Snippet) : String :=
  joinLines (transcript.map (fun snippet => snippet.text))

/-- The `lines` list built by `_format_srt`'s loop
(`enumerate(transcript, start=1)`). -/
def srtLines : Nat → List Snippet → List String
  | _, [] => []
  | idx, snippet :: rest =>
    toString idx ::
      (_to_srt_timestamp snippet.start ++ " --> " ++
        _to_srt_timestamp (snippet.start + snippet.duration)) ::
      snippet.text :: "" :: srtLines (idx + 1) rest

/-- `app/main.py` line 75: `_format_srt`. -/
def _format_srt (transcript : List Snippet) : String :=
  pyRstrip (joinLines (srtLines 1 transcript)) ++ "\n"

/-- The cue lines built by `_format_vtt`'s loop. -/
def vttLines : List Snippet → List String
  | [] => []
  | snippet :: rest =>
    (_to_vtt_timestamp snippet.start ++ " --> " ++
        _to_vtt_timestamp (snippet.start + snippet.duration)) ::
      snippet.text :: "" :: vttLines rest

/-- `app/main.py` line 87: `_format_vtt`. -/
def _format_vtt (transcript : List Snippet) : String :=
  pyRstrip (joinLines ("WEBVTT" :: "" :: vttLines transcript)) ++ "\n"

/-- Modelled from the spec: the transcript provider's exception taxonomy
(the `youtube_transcript_api` exception classes, whose defining module is not
part of the formatting source).  Per the spec's error taxonomy and its
closed tagged-variant design note, each kind is a separate variant carrying
its message (`str(e)`), with `OtherApiException` standing for any other
provider-defined exception (`YouTubeTranscriptApiException`) and
`YouTubeRequestFailed` being the distinct upstream-request-failure kind. -/
inductive ProviderError where
  | NoTranscriptFound (msg : String)
  | TranscriptsDisabled (msg : String)
  | VideoUnavailable (msg : String)
  | VideoUnplayable (msg : String)
  | IpBlocked (msg : String)
  | RequestBlocked (msg : String)
  | AgeRestricted (msg : String)
  | InvalidVideoId (msg : String)
  | PoTokenRequired (msg : String)
  | OtherApiException (msg : String)
  | YouTubeRequestFailed (msg : String)

/-- An exception escaping the provider calls in the handler's `try` block:
either a provider-defined exception or any other unexpected exception. -/
inductive PyException where
  | provider (e : ProviderError)
  | unexpected (msg : String)

/-- `str(e)` for a provider exception. -/
def providerErrorMessage : ProviderError → String
  | .NoTranscriptFound msg => msg
  | .TranscriptsDisabled msg => msg
  | .VideoUnavailable msg => msg
  | .VideoUnplayable msg => msg
  | .IpBlocked msg => msg
  | .RequestBlocked msg => msg
  | .AgeRestricted msg => msg
  | .InvalidVideoId msg => msg
  | .PoTokenRequired msg => msg
  | .OtherApiException msg => msg
  | .YouTubeRequestFailed msg => msg

/-- `str(e)` for any exception reaching the handler's `except` clauses. -/
def exceptionMessage : PyException → String
  | .provider e => providerErrorMessage e
  | .unexpected msg => msg

/-- Modelled from the spec: membership test of the first `except` clause's
class tuple (`NoTranscriptFound`, ..., `PoTokenRequired`,
`YouTubeTranscriptApiException`).  Under the spec's closed flat taxonomy the
upstream-failure kind is not one of these, and a non-provider exception
matches none of them. -/
def matchesApiExceptionTuple : PyException → Bool
  | .provider (.YouTubeRequestFailed _) => false
  | .provider _ => true
  | .unexpected _ => false

/-- `isinstance(e, YouTubeRequestFailed)` for the second `except` clause. -/
def isRequestFailed : PyException → Bool
  | .provider (.YouTubeRequestFailed _) => true
  | _ => false

/-- `app/main.py` lines 169-187: the handler's `except` chain, tried in
source order: the provider-exception tuple → 404 with `str(e)`; then
`YouTubeRequestFailed` → 502 with `str(e)`; then any exception → 500 with a
generic message. -/
def handleException (e : PyException) : Response :=
  if matchesApiExceptionTuple e then Response.error 404 (exceptionMessage e)
  else if isRequestFailed e then Response.error 502 (exceptionMessage e)
  else Response.error 500 "Internal Server Error"

/-- `app/main.py` line 130: `get_transcript`.  The provider interactions of
the `try` block (`api.list`, `find_transcript` with its
`find_generated_transcript` fallback, `transcript.fetch`) are abstracted as
one injected call `fetchSnippets languages preserve_formatting` that either
returns the fetched snippet sequence or raises an exception. -/
def get_transcript (video_id : Option String) (lang : Option String)
    (output_format : OutputFormat) (preserve_formatting : Bool)
    (fetchSnippets : List String → Bool → Except PyException (List Snippet)) :
    Response :=
  match video_id with
  | none => Response.error 400 "Missing required query parameter \x27videoId\x27."
  | some v =>
    if v = "" then
      Response.error 400 "Missing required query parameter \x27videoId\x27."
    else
      let languages := _parse_languages lang
      match fetchSnippets languages preserve_formatting with
      | Except.error e => handleException e
      | Except.ok fetched =>
        match output_format with
        | OutputFormat.json => Response.jsonBody fetched
        | OutputFormat.txt => Response.plainText (_format_txt fetched)
        | OutputFormat.srt => Response.plainText (_format_srt fetched)
        | OutputFormat.vtt => Response.plainText (_format_vtt fetched)

/-- Reference definition following the spec's words for the language parser
(§4.1): split on commas, trim surrounding whitespace from each piece,
lowercase it, and drop any piece that becomes empty after trimming; absent or
empty input gives the single-element fallback list. -/
def parseLanguagesSpec (lang : Option String) : List String :=
  match lang with
  | none => ["en"]
  | some s =>
    if s = "" then ["en"]
    else
      (pySplit ',' s).filterMap (fun piece =>
        if pyStrip piece = "" then none else some (pyLower (pyStrip piece)))

theorem pyLower_eq_empty_iff (s : String) : pyLower s = "" ↔ s = "" := by
  constructor
  · intro h
    have hd : (pyLower s).data = [] := by rw [h]
    have : s.data.map Char.toLower = [] := hd
    have hnil : s.data = [] := List.map_eq_nil_iff.mp this
    cases s with
    | mk data =>
      simp only at hnil
      subst hnil
      decide
  · intro h
    rw [h]
    rfl

theorem map_strip_lower_filter (l : List String) :
    (l.map (fun code => pyLower (pyStrip code))).filter (fun code => code != "") =
      l.filterMap (fun piece =>
        if pyStrip piece = "" then none else some (pyLower (pyStrip piece))) := by
  induction l with
  | nil => rfl
  | cons p rest ih =>
    simp only [List.map_cons, List.filter_cons, List.filterMap_cons]
    by_cases h : pyStrip p = ""
    · have h0 : pyLower "" = "" := by decide
      simp [h, h0, ih]
    · have : pyLower (pyStrip p) ≠ "" := fun hc => h ((pyLower_eq_empty_iff _).mp hc)
      simp [h, bne_iff_ne, this, ih]

/-- C4: the language parser maps absent or empty input to exactly `["en"]`;
any other input is split on commas, each piece trimmed and lowercased, with
pieces that trim to empty dropped (stated as agreement with the
spec-side reference definition); `"DE, en ,"` yields `["de", "en"]`; the
parser is a total Lean function, so it never raises. -/
theorem parse_languages_spec_correct :
    _parse_languages none = ["en"] ∧
    _parse_languages (some "") = ["en"] ∧
    (∀ lang : Option String, _parse_languages lang = parseLanguagesSpec lang) ∧
    _parse_languages (some "DE, en ,") = ["de", "en"] := by
  refine ⟨rfl, by decide, ?_, by decide⟩
  intro lang
  match lang with
  | none => rfl
  | some s =>
    by_cases h : s = ""
    · simp [_parse_languages, parseLanguagesSpec, h]
    · simp only [_parse_languages, parseLanguagesSpec, if_neg h]
      exact map_strip_lower_filter _

/-- C3 counterexample: for the input `","` every comma-separated piece trims
to empty, so the parsed language-preference list is empty — it does not
contain the claimed "en" fallback entry. -/
theorem parse_languages_nonempty_counterexample :
    ¬ (1 ≤ (_parse_languages (some ",")).length) := by decide

/-- C3 (amended): the parsed language-preference list has at least one entry
whenever the input is absent, empty, or has some comma-separated piece that
does not trim to empty; an input all of whose pieces trim to empty (such as
`","`) yields the empty list instead. -/
theorem parse_languages_nonempty_amended :
    ∀ lang : Option String,
      (lang = none ∨ lang = some "" ∨
        ∃ s, lang = some s ∧ ∃ p ∈ pySplit ',' s, pyStrip p ≠ "") →
      1 ≤ (_parse_languages lang).length := by
  intro lang h
  rcases h with rfl | rfl | ⟨s, rfl, p, hp, hps⟩
  · decide
  · decide
  · by_cases hs : s = ""
    · simp [_parse_languages, hs]
    · simp only [_parse_languages, if_neg hs]
      have hmem : pyLower (pyStrip p) ∈
          (pySplit ',' s).map (fun code => pyLower (pyStrip code)) :=
        List.mem_map_of_mem _ hp
      have hne : pyLower (pyStrip p) ≠ "" :=
        fun hc => hps ((pyLower_eq_empty_iff _).mp hc)
      have hmemf : pyLower (pyStrip p) ∈
          ((pySplit ',' s).map (fun code => pyLower (pyStrip code))).filter
            (fun code => code != "") := by
        rw [List.mem_filter]
        exact ⟨hmem, by simpa [bne_iff_ne] using hne⟩
      exact List.length_pos_of_mem hmemf

theorem parse_languages_nonempty_amended_witness :
    ((some "x" : Option String) = none ∨ (some "x" : Option String) = some "" ∨
      ∃ s, (some "x" : Option String) = some s ∧
        ∃ p ∈ pySplit ',' s, pyStrip p ≠ "") ∧
    1 ≤ (_parse_languages (some "x")).length :=
  ⟨Or.inr (Or.inr ⟨"x", rfl, "x", by decide, by decide⟩),
    parse_languages_nonempty_amended (some "x")
      (Or.inr (Or.inr ⟨"x", rfl, "x", by decide, by decide⟩))⟩

/-- C10: with zero cues the VTT serializer still emits its header — the
result is exactly `"WEBVTT\n"` — while the SRT serializer's empty-input
result is the bare newline `"\n"`. -/
theorem format_vtt_empty_header :
    _format_vtt [] = "WEBVTT\n" ∧ _format_srt [] = "\n" :=
  ⟨by decide, by decide⟩

/-- C1: when the provider call raises the upstream-request-failure kind
(`YouTubeRequestFailed`), the `/transcript` handler returns a 502 response
whose detail is that error's message. -/
theorem upstream_request_failed_maps_to_502 :
    ∀ (v : String) (lang : Option String) (fmt : OutputFormat)
      (preserve : Bool) (msg : String), v ≠ "" →
      get_transcript (some v) lang fmt preserve
        (fun _ _ => Except.error
          (PyException.provider (ProviderError.YouTubeRequestFailed msg))) =
        Response.error 502 msg := by
  intro v lang fmt preserve msg hv
  simp [get_transcript, hv, handleException, matchesApiExceptionTuple,
    isRequestFailed, exceptionMessage, providerErrorMessage]

theorem upstream_request_failed_maps_to_502_witness :
    ("abc" : String) ≠ "" ∧
    get_transcript (some "abc") none OutputFormat.json false
      (fun _ _ => Except.error
        (PyException.provider (ProviderError.YouTubeRequestFailed "boom"))) =
      Response.error 502 "boom" :=
  ⟨by decide,
    upstream_request_failed_maps_to_502 "abc" none OutputFormat.json false
      "boom" (by decide)⟩

/-- C2: when the provider call raises any provider-defined exception other
than the upstream-request-failure kind (not-found, disabled, unavailable,
unplayable, IP-blocked, request-blocked, age-restricted, invalid-id,
token-required, or any other provider-defined exception), the `/transcript`
handler returns a 404 response whose detail is that error's message passed
through verbatim. -/
theorem provider_exception_maps_to_404 :
    ∀ (v : String) (lang : Option String) (fmt : OutputFormat)
      (preserve : Bool) (e : ProviderError), v ≠ "" →
      isRequestFailed (PyException.provider e) = false →
      get_transcript (some v) lang fmt preserve
        (fun _ _ => Except.error (PyException.provider e)) =
        Response.error 404 (providerErrorMessage e) := by
  intro v lang fmt preserve e hv he
  cases e <;>
    simp_all [get_transcript, handleException, matchesApiExceptionTuple,
      isRequestFailed, exceptionMessage, providerErrorMessage]

theorem int_floor_eq_rat_floor (q : ℚ) : Int.floor q = Rat.floor q := rfl

theorem pyRound_intCast (n : ℤ) : pyRound ((n : ℚ)) = n := by
  have hf : Rat.floor ((n : ℚ)) = n := by
    rw [← int_floor_eq_rat_floor]
    exact Int.floor_intCast n
  simp only [pyRound]
  rw [hf]
  norm_num

theorem pyRound_nonneg {q : ℚ} (hq : 0 ≤ q) : 0 ≤ pyRound q := by
  have hf : (0 : ℤ) ≤ Rat.floor q := by
    rw [← int_floor_eq_rat_floor]
    exact Int.floor_nonneg.mpr hq
  simp only [pyRound]
  split
  · exact hf
  · split
    · omega
    · split <;> omega

theorem pyRound_toNat (q : ℚ) (hq : 0 ≤ q) :
    ∃ N : ℕ, pyRound (q * 1000) = ((N : ℤ)) :=
  ⟨(pyRound (q * 1000)).toNat,
    (Int.toNat_of_nonneg (pyRound_nonneg (mul_nonneg hq (by norm_num)))).symm⟩

set_option maxHeartbeats 1000000 in
set_option maxRecDepth 10000 in
theorem zfill2_length : ∀ n : ℕ, n < 100 → (zfill 2 (toString n)).length = 2 := by
  decide

set_option maxHeartbeats 1000000 in
set_option maxRecDepth 10000 in
theorem zfill3_length : ∀ n : ℕ, n < 1000 → (zfill 3 (toString n)).length = 3 := by
  decide

/-- C7: for every non-negative seconds value, both timestamp formatters
first round to total milliseconds `ms = round(seconds * 1000)` and then
decompose by integer division — hours = ms ÷ 3600000, minutes =
(ms mod 3600000) ÷ 60000, seconds = (ms mod 60000) ÷ 1000, milliseconds =
ms mod 1000 — rendering each field zero-padded; `0` formats as
`"00:00:00,000"` (SRT) and `"00:00:00.000"` (VTT), and `3661.5` as
`"01:01:01,500"` (SRT), seconds values of an hour or more reaching the hours
field through the ÷ 3600000 decomposition. -/
theorem timestamp_decomposition_correct :
    (∀ q : ℚ, 0 ≤ q →
      ∃ ms : ℕ, ((ms : ℤ)) = pyRound (q * 1000) ∧
        _to_srt_timestamp q =
          zfill 2 (toString (ms / 3600000)) ++ ":" ++
          zfill 2 (toString (ms % 3600000 / 60000)) ++ ":" ++
          zfill 2 (toString (ms % 60000 / 1000)) ++ "," ++
          zfill 3 (toString (ms % 1000)) ∧
        _to_vtt_timestamp q =
          zfill 2 (toString (ms / 3600000)) ++ ":" ++
          zfill 2 (toString (ms % 3600000 / 60000)) ++ ":" ++
          zfill 2 (toString (ms % 60000 / 1000)) ++ "." ++
          zfill 3 (toString (ms % 1000))) ∧
    _to_srt_timestamp 0 = "00:00:00,000" ∧
    _to_vtt_timestamp 0 = "00:00:00.000" ∧
    _to_srt_timestamp 3661.5 = "01:01:01,500" := by
  refine ⟨?_, ?_, ?_, ?_⟩
  · intro q hq
    obtain ⟨N, hN⟩ := pyRound_toNat q hq
    refine ⟨N, hN.symm, ?_, ?_⟩
    · simp only [_to_srt_timestamp, hN]
      rfl
    · simp only [_to_vtt_timestamp, hN]
      rfl
  · have h : (0 : ℚ) * 1000 = (((0 : ℤ)) : ℚ) := by norm_num
    simp only [_to_srt_timestamp, h, pyRound_intCast]
    decide
  · have h : (0 : ℚ) * 1000 = (((0 : ℤ)) : ℚ) := by norm_num
    simp only [_to_vtt_timestamp, h, pyRound_intCast]
    decide
  · have h : (3661.5 : ℚ) * 1000 = (((3661500 : ℤ)) : ℚ) := by norm_num
    simp only [_to_srt_timestamp, h, pyRound_intCast]
    decide

theorem timestamp_decomposition_correct_witness :
    (0 : ℚ) ≤ 2 ∧
    (∃ ms : ℕ, ((ms : ℤ)) = pyRound ((2 : ℚ) * 1000) ∧
      _to_srt_timestamp 2 =
        zfill 2 (toString (ms / 3600000)) ++ ":" ++
        zfill 2 (toString (ms % 3600000 / 60000)) ++ ":" ++
        zfill 2 (toString (ms % 60000 / 1000)) ++ "," ++
        zfill 3 (toString (ms % 1000)) ∧
      _to_vtt_timestamp 2 =
        zfill 2 (toString (ms / 3600000)) ++ ":" ++
        zfill 2 (toString (ms % 3600000 / 60000)) ++ ":" ++
        zfill 2 (toString (ms % 60000 / 1000)) ++ "." ++
        zfill 3 (toString (ms % 1000))) :=
  ⟨zero_le_two, timestamp_decomposition_correct.1 2 zero_le_two⟩

/-- C8: for every non-negative seconds value, the SRT and VTT timestamp
strings share a common prefix and a common 3-character milliseconds suffix,
differing only in the single separator character between the seconds field
and the milliseconds field: a comma for SRT and a period for VTT. -/
theorem srt_vtt_differ_only_in_separator :
    ∀ q : ℚ, 0 ≤ q →
      ∃ pre post : String, post.length = 3 ∧
        _to_srt_timestamp q = pre ++ "," ++ post ∧
        _to_vtt_timestamp q = pre ++ "." ++ post := by
  intro q hq
  obtain ⟨N, hN⟩ := pyRound_toNat q hq
  refine ⟨zfill 2 (toString (N / 3600000)) ++ ":" ++
      zfill 2 (toString (N % 3600000 / 60000)) ++ ":" ++
      zfill 2 (toString (N % 60000 / 1000)),
    zfill 3 (toString (N % 1000)), ?_, ?_, ?_⟩
  · exact zfill3_length _ (Nat.mod_lt _ (by norm_num))
  · simp only [_to_srt_timestamp, hN]
    rfl
  · simp only [_to_vtt_timestamp, hN]
    rfl

theorem srt_vtt_differ_only_in_separator_witness :
    (0 : ℚ) ≤ 0 ∧
    (∃ pre post : String, post.length = 3 ∧
      _to_srt_timestamp 0 = pre ++ "," ++ post ∧
      _to_vtt_timestamp 0 = pre ++ "." ++ post) :=
  ⟨le_refl 0, srt_vtt_differ_only_in_separator 0 (le_refl 0)⟩

/-- C9 counterexample: at 360000 seconds (100 hours) the rounded total
milliseconds reach 360000000, the hours field takes three digits
(`"100:00:00,000"`), and the output is 13 characters — not the claimed
fixed width of 12. -/
theorem timestamp_width_counterexample :
    (0 : ℚ) ≤ 360000 ∧
    _to_srt_timestamp 360000 = "100:00:00,000" ∧
    (_to_srt_timestamp 360000).length ≠ 12 := by
  refine ⟨by norm_num, ?_, ?_⟩ <;>
  · have h : (360000 : ℚ) * 1000 = (((360000000 : ℤ)) : ℚ) := by norm_num
    simp only [_to_srt_timestamp, h, pyRound_intCast]
    decide

/-- C9 (amended): for every non-negative seconds value whose rounded total
milliseconds stay below 360000000 (i.e. below 100 hours), the formatter
output is exactly 12 characters — hours, minutes and seconds fields of
exactly 2 digits and a milliseconds field of exactly 3 digits; the fields
are zero-padded to a minimum of those widths, the hours field growing beyond
2 digits from 100 hours upward. -/
theorem timestamp_fixed_width_amended :
    ∀ q : ℚ, 0 ≤ q → pyRound (q * 1000) < 360000000 →
      ∃ hh mm ss mmm : String,
        hh.length = 2 ∧ mm.length = 2 ∧ ss.length = 2 ∧ mmm.length = 3 ∧
        _to_srt_timestamp q = hh ++ ":" ++ mm ++ ":" ++ ss ++ "," ++ mmm ∧
        _to_vtt_timestamp q = hh ++ ":" ++ mm ++ ":" ++ ss ++ "." ++ mmm ∧
        (_to_srt_timestamp q).length = 12 ∧
        (_to_vtt_timestamp q).length = 12 := by
  intro q hq hlt
  obtain ⟨N, hN⟩ := pyRound_toNat q hq
  have hNlt : N < 360000000 := by
    have h : ((N : ℤ)) < 360000000 := hN ▸ hlt
    exact_mod_cast h
  have e1 : (zfill 2 (toString (N / 3600000))).length = 2 :=
    zfill2_length _ ((Nat.div_lt_iff_lt_mul (by norm_num)).mpr (by omega))
  have e2 : (zfill 2 (toString (N % 3600000 / 60000))).length = 2 := by
    have hm : N % 3600000 < 3600000 := Nat.mod_lt _ (by norm_num)
    exact zfill2_length _ (by
      have := (Nat.div_lt_iff_lt_mul (show 0 < 60000 by norm_num)).mpr
        (show N % 3600000 < 60 * 60000 by omega)
      omega)
  have e3 : (zfill 2 (toString (N % 60000 / 1000))).length = 2 := by
    have hm : N % 60000 < 60000 := Nat.mod_lt _ (by norm_num)
    exact zfill2_length _ (by
      have := (Nat.div_lt_iff_lt_mul (show 0 < 1000 by norm_num)).mpr
        (show N % 60000 < 60 * 1000 by omega)
      omega)
  have e4 : (zfill 3 (toString (N % 1000))).length = 3 :=
    zfill3_length _ (Nat.mod_lt _ (by norm_num))
  have hsrt : _to_srt_timestamp q =
      zfill 2 (toString (N / 3600000)) ++ ":" ++
      zfill 2 (toString (N % 3600000 / 60000)) ++ ":" ++
      zfill 2 (toString (N % 60000 / 1000)) ++ "," ++
      zfill 3 (toString (N % 1000)) := by
    simp only [_to_srt_timestamp, hN]
    rfl
  have hvtt : _to_vtt_timestamp q =
      zfill 2 (toString (N / 3600000)) ++ ":" ++
      zfill 2 (toString (N % 3600000 / 60000)) ++ ":" ++
      zfill 2 (toString (N % 60000 / 1000)) ++ "." ++
      zfill 3 (toString (N % 1000)) := by
    simp only [_to_vtt_timestamp, hN]
    rfl
  have hone : (":" : String).length = 1 ∧ ("," : String).length = 1 ∧
      ("." : String).length = 1 := by decide
  refine ⟨_, _, _, _, e1, e2, e3, e4, hsrt, hvtt, ?_, ?_⟩
  · rw [hsrt]
    simp [String.length_append, e1, e2, e3, e4, hone.1, hone.2.1]
  · rw [hvtt]
    simp [String.length_append, e1, e2, e3, e4, hone.1, hone.2.2]

theorem timestamp_fixed_width_amended_witness :
    (0 : ℚ) ≤ 2 ∧ pyRound ((2 : ℚ) * 1000) < 360000000 ∧
    (∃ hh mm ss mmm : String,
      hh.length = 2 ∧ mm.length = 2 ∧ ss.length = 2 ∧ mmm.length = 3 ∧
      _to_srt_timestamp 2 = hh ++ ":" ++ mm ++ ":" ++ ss ++ "," ++ mmm ∧
      _to_vtt_timestamp 2 = hh ++ ":" ++ mm ++ ":" ++ ss ++ "." ++ mmm ∧
      (_to_srt_timestamp 2).length = 12 ∧
      (_to_vtt_timestamp 2).length = 12) := by
  have h2 : pyRound ((2 : ℚ) * 1000) < 360000000 := by
    rw [show (2 : ℚ) * 1000 = (((2000 : ℤ)) : ℚ) from by norm_num,
      pyRound_intCast]
    norm_num
  exact ⟨zero_le_two, h2, timestamp_fixed_width_amended 2 zero_le_two h2⟩

theorem provider_exception_maps_to_404_witness :
    ("abc" : String) ≠ "" ∧
    isRequestFailed
      (PyException.provider (ProviderError.NoTranscriptFound "none for en")) =
      false ∧
    get_transcript (some "abc") none OutputFormat.json false
      (fun _ _ => Except.error
        (PyException.provider (ProviderError.NoTranscriptFound "none for en"))) =
      Response.error 404 "none for en" :=
  ⟨by decide, by decide,
    provider_exception_maps_to_404 "abc" none OutputFormat.json false
      (ProviderError.NoTranscriptFound "none for en") (by decide) (by decide)⟩

/-- Concatenation of a list of strings. -/
def concatAll : List String → String
  | [] => ""
  | s :: rest => s ++ concatAll rest

/-- Spec-side SRT cue block for a 1-based cue index: the index line, the
`<start> --> <end>` timing line with end = start + duration, the text line,
and the blank separator line. -/
def srtBlock (cue : Nat × Snippet) : String :=
  toString cue.1 ++ "\n" ++
    (_to_srt_timestamp cue.2.start ++ " --> " ++
      _to_srt_timestamp (cue.2.start + cue.2.duration)) ++ "\n" ++
    cue.2.text ++ "\n" ++ "\n"

/-- Spec-side VTT cue block: the `<start> --> <end>` timing line with
end = start + duration, the text line, and the blank separator line. -/
def vttBlock (snippet : Snippet) : String :=
  (_to_vtt_timestamp snippet.start ++ " --> " ++
      _to_vtt_timestamp (snippet.start + snippet.duration)) ++ "\n" ++
    snippet.text ++ "\n" ++ "\n"

theorem pyRstrip_append_newline (s : String) : pyRstrip (s ++ "\n") = pyRstrip s := by
  have h : (s ++ "\n").data = s.data ++ ['\n'] := by
    rw [String.data_append]
  simp [pyRstrip, h, pyIsSpace]

theorem newline_pair (t : String) : ("\n" : String) ++ ("\n" ++ t) = "\n\n" ++ t := by
  rw [← String.append_assoc]
  have h : ("\n" : String) ++ "\n" = "\n\n" := by decide
  rw [h]

theorem webvtt_pair (t : String) :
    ("WEBVTT\n" : String) ++ ("\n" ++ t) = "WEBVTT\n\n" ++ t := by
  rw [← String.append_assoc]
  have h : ("WEBVTT\n" : String) ++ "\n" = "WEBVTT\n\n" := by decide
  rw [h]

theorem joinLines_srtLines_cons (n : Nat) (c : Snippet) (rest : List Snippet)
    (h : rest ≠ []) :
    joinLines (srtLines n (c :: rest)) =
      srtBlock (n, c) ++ joinLines (srtLines (n + 1) rest) := by
  match rest with
  | r :: rest2 =>
    simp only [srtLines]
    simp only [joinLines, srtBlock, String.empty_append]
    simp [String.append_assoc]
    rw [newline_pair]

theorem concatAll_srtBlocks (n : Nat) (ts : List Snippet) :
    concatAll ((List.enumFrom n ts).map srtBlock) =
      joinLines (srtLines n ts) ++ (if ts = [] then "" else "\n") := by
  induction ts generalizing n with
  | nil => rfl
  | cons c rest ih =>
    show srtBlock (n, c) ++ concatAll ((List.enumFrom (n + 1) rest).map srtBlock) = _
    rw [ih (n + 1)]
    cases rest with
    | nil =>
      simp [srtLines, srtBlock, joinLines, String.append_assoc,
        String.append_empty, String.empty_append]
    | cons c2 rest2 =>
      rw [joinLines_srtLines_cons n c (c2 :: rest2) (by simp)]
      simp [String.append_assoc]

theorem joinLines_vttLines_cons (c : Snippet) (rest : List Snippet)
    (h : rest ≠ []) :
    joinLines (vttLines (c :: rest)) = vttBlock c ++ joinLines (vttLines rest) := by
  match rest with
  | r :: rest2 =>
    simp only [vttLines]
    simp only [joinLines, vttBlock, String.empty_append]
    simp [String.append_assoc]
    rw [newline_pair]

theorem concatAll_vttBlocks (ts : List Snippet) :
    concatAll (ts.map vttBlock) =
      joinLines (vttLines ts) ++ (if ts = [] then "" else "\n") := by
  induction ts with
  | nil => rfl
  | cons c rest ih =>
    show vttBlock c ++ concatAll (rest.map vttBlock) = _
    rw [ih]
    cases rest with
    | nil =>
      simp [vttLines, vttBlock, joinLines, String.append_assoc,
        String.append_empty, String.empty_append]
    | cons c2 rest2 =>
      rw [joinLines_vttLines_cons c (c2 :: rest2) (by simp)]
      simp [String.append_assoc]

/-- C5: for every snippet sequence the SRT serializer produces, cue by cue in
order with 1-based indices, the block "index, `<start> --> <end>` with
end = start + duration, text, blank separator line", then trims trailing
whitespace and appends exactly one newline; the single snippet
(text "hi", start 1, duration 2) yields exactly
`"1\n00:00:01,000 --> 00:00:03,000\nhi\n"`, and the empty sequence yields
exactly `"\n"`. -/
theorem format_srt_spec_correct :
    (∀ ts : List Snippet, _format_srt ts =
      pyRstrip (concatAll ((List.enumFrom 1 ts).map srtBlock)) ++ "\n") ∧
    _format_srt [⟨"hi", 1, 2⟩] = "1\n00:00:01,000 --> 00:00:03,000\nhi\n" ∧
    _format_srt [] = "\n" := by
  refine ⟨?_, ?_, by decide⟩
  · intro ts
    rw [concatAll_srtBlocks 1 ts]
    cases ts with
    | nil => simp [_format_srt, String.append_empty]
    | cons c rest =>
      simp only [_format_srt]
      rw [show (if (c :: rest : List Snippet) = [] then ("" : String) else "\n") = "\n"
          from by simp]
      rw [pyRstrip_append_newline]
  · have t1 : _to_srt_timestamp 1 = "00:00:01,000" := by
      simp only [_to_srt_timestamp,
        show ((1 : ℚ)) * 1000 = (((1000 : ℤ)) : ℚ) from by norm_num, pyRound_intCast]
      decide
    have t3 : _to_srt_timestamp ((1 : ℚ) + 2) = "00:00:03,000" := by
      simp only [_to_srt_timestamp,
        show ((1 : ℚ) + 2) * 1000 = (((3000 : ℤ)) : ℚ) from by norm_num, pyRound_intCast]
      decide
    simp only [_format_srt, srtLines, t1, t3]
    decide

theorem joinLines_vtt_header (c : Snippet) (rest : List Snippet) :
    joinLines ("WEBVTT" :: "" :: vttLines (c :: rest)) =
      "WEBVTT" ++ "\n" ++ "\n" ++ joinLines (vttLines (c :: rest)) := by
  simp only [vttLines]
  simp only [joinLines, String.empty_append]
  simp [String.append_assoc]
  rw [webvtt_pair]

/-- C6: for every snippet sequence the VTT serializer emits the `WEBVTT`
header line and a blank line, then cue by cue in order the
`<start> --> <end>` timing line with end = start + duration, the text, and a
blank separator line, then trims trailing whitespace and appends exactly one
newline; the single snippet (text "hi", start 1, duration 2) yields exactly
`"WEBVTT\n\n00:00:01.000 --> 00:00:03.000\nhi\n"`. -/
theorem format_vtt_spec_correct :
    (∀ ts : List Snippet, _format_vtt ts =
      pyRstrip ("WEBVTT" ++ "\n" ++ "\n" ++ concatAll (ts.map vttBlock)) ++ "\n") ∧
    _format_vtt [⟨"hi", 1, 2⟩] = "WEBVTT\n\n00:00:01.000 --> 00:00:03.000\nhi\n" := by
  constructor
  · intro ts
    cases ts with
    | nil =>
      simp only [_format_vtt, vttLines, joinLines, concatAll, String.append_empty,
        String.empty_append]
      decide
    | cons c rest =>
      simp only [_format_vtt, joinLines_vtt_header, concatAll_vttBlocks]
      rw [show (if (c :: rest : List Snippet) = [] then ("" : String) else "\n") = "\n"
          from by simp]
      simp [← String.append_assoc, pyRstrip_append_newline]
  · have t1 : _to_vtt_timestamp 1 = "00:00:01.000" := by
      simp only [_to_vtt_timestamp,
        show ((1 : ℚ)) * 1000 = (((1000 : ℤ)) : ℚ) from by norm_num, pyRound_intCast]
      decide
    have t3 : _to_vtt_timestamp ((1 : ℚ) + 2) = "00:00:03.000" := by
      simp only [_to_vtt_timestamp,
        show ((1 : ℚ) + 2) * 1000 = (((3000 : ℤ)) : ℚ) from by norm_num, pyRound_intCast]
      decide
    simp only [_format_vtt, vttLines, t1, t3]
    decide
